import Mathlib

/-!
Verification of the `User` fetch-and-render component
(`src/Components/User/index.tsx`).

The component keeps two state cells, `user : User | null` (initially
`null`) and `isLoading : boolean` (initially `true`).  A `useEffect`
with an empty dependency array runs `fetchUser` once after the first
render: it sets `isLoading` to `true`, awaits `fetch('/api/user')`,
parses the body, stores it with `setUser`, and sets `isLoading` to
`false`.  Rendering returns `Loading...` while `isLoading`, the
`No user found` notice when the stored user is falsy, and otherwise the
user info block, whose street line is guarded by
`user.address.street && ...`.

We embed the dynamically-typed payload as an inductive `JsVal`,
property access and JSX-child rendering as `Except`-valued functions
(a thrown `TypeError` or an invalid React child is an `.error`), the
fetch cycle as a state transformer that also reports an uncaught
exception, and React's run-effect-when-deps-change rule as a counter
over render traces.
-/

/-- A JavaScript value as it can arrive from `response.json()` (plus the
runtime values `undefined`, booleans and `NaN` that the component's
truthiness tests distinguish).  Numbers are modelled as integers with a
separate `nan` constructor; non-integral numbers play no role in any
property considered here. -/
inductive JsVal where
  | null
  | undefined
  | bool (b : Bool)
  | num (n : Int)
  | nan
  | str (s : String)
  | obj (fields : List (String × JsVal))

/-- JavaScript truthiness: everything is truthy except `null`,
`undefined`, `false`, `0`, `NaN` and the empty string.  Objects are
always truthy. -/
def truthy : JsVal → Bool
  | .null => false
  | .undefined => false
  | .bool b => b
  | .num n => n != 0
  | .nan => false
  | .str s => s != ""
  | .obj _ => true

/-- A runtime fault that escapes the component. -/
inductive JsErr where
  | typeError (field : String)
  | invalidChild
deriving DecidableEq

/-- JavaScript property access `base.field`: throws a `TypeError` when
the base is `null` or `undefined`, looks the field up (yielding
`undefined` when absent) on an object, and yields `undefined` on other
primitives. -/
def getField : JsVal → String → Except JsErr JsVal
  | .null, f => .error (.typeError f)
  | .undefined, f => .error (.typeError f)
  | .obj fields, f => .ok ((fields.lookup f).getD .undefined)
  | _, _ => .ok .undefined

/-- How React renders an interpolated child value as text: strings
verbatim, numbers via decimal notation, `NaN` as `"NaN"`, nothing for
`null`, `undefined` and booleans; a plain object is not a valid React
child and raises. -/
def jsxText : JsVal → Except JsErr String
  | .null => .ok ""
  | .undefined => .ok ""
  | .bool _ => .ok ""
  | .num n => .ok (toString n)
  | .nan => .ok "NaN"
  | .str s => .ok s
  | .obj _ => .error .invalidChild

/-- Outcome of the guarded street expression
`user.address.street && <p>Address: {user.address.street}</p>`. -/
inductive StreetRender where
  | line (s : String)
  | text (s : String)
  | nothing
deriving DecidableEq

/-- Evaluate the street guard: a truthy street yields the address line;
a falsy street makes the `&&` expression evaluate to the street value
itself, which React renders as text (nothing for `""`, `undefined`,
`null` and `false`; the digits for `0` or `NaN`). -/
def streetView (st : JsVal) : Except JsErr StreetRender :=
  if truthy st then do
    let t ← jsxText st
    .ok (.line ("Address: " ++ t))
  else do
    let t ← jsxText st
    .ok (if t = "" then .nothing else .text t)

/-- What the component puts on screen. -/
inductive View where
  | loading
  | noUser
  | loaded (idLine name1 name2 : String) (street : StreetRender)
deriving DecidableEq

/-- The component's render body: `Loading...` while `isLoading`, the
`No user found` notice when the stored user is falsy, otherwise the
user block.  Property accesses are evaluated in source order
(`user.id`, `user.firstName`, `user.lastName`, `user.address.street`)
before React checks child validity, so an exception from the unguarded
`user.address.street` access precedes any invalid-child fault. -/
def render (isLoading : Bool) (user : JsVal) : Except JsErr View :=
  if isLoading then .ok .loading
  else if truthy user = false then .ok .noUser
  else do
    let idV ← getField user "id"
    let fnV ← getField user "firstName"
    let lnV ← getField user "lastName"
    let addr ← getField user "address"
    let st ← getField addr "street"
    let idT ← jsxText idV
    let fnT ← jsxText fnV
    let lnT ← jsxText lnV
    let stV ← streetView st
    .ok (.loaded ("ID: " ++ idT) ("Name: " ++ fnT) ("Name: " ++ lnT) stV)

/-- The two `useState` cells of the component. -/
structure CState where
  user : JsVal
  isLoading : Bool

/-- Initial state: `useState<User | null>(null)` and `useState(true)`. -/
def initState : CState :=
  { user := .null, isLoading := true }

/-- One run of `fetchUser`, given the outcome of
`fetch('/api/user')` followed by `response.json()`.  It first sets
`isLoading` to `true`; if the fetch/parse step throws, the remaining
statements are skipped and — since nothing catches — the exception is
reported as an uncaught rejection (the `Option JsErr` component);
otherwise the payload is stored and `isLoading` is cleared. -/
def fetchUser (s : CState) (r : Except JsErr JsVal) : CState × Option JsErr :=
  let s1 := { s with isLoading := true }
  match r with
  | .error e => (s1, some e)
  | .ok data => ({ user := data, isLoading := false }, none)

/-- React compares a `useEffect` dependency array to the one from the
previous render element-wise with `Object.is`; the effect runs again
exactly when there was no previous array or some entry changed.  We
keep `Object.is` abstract (the component's array is empty, so it is
never consulted). -/
def depsEq (is : JsVal → JsVal → Bool) : List JsVal → List JsVal → Bool
  | [], [] => true
  | a :: as, b :: bs => is a b && depsEq is as bs
  | _, _ => false

/-- Whether the effect body runs on a render, given the dependency
array stored by the previous render (`none` on the mount render). -/
def effectFires (is : JsVal → JsVal → Bool)
    (prev : Option (List JsVal)) (deps : List JsVal) : Bool :=
  match prev with
  | none => true
  | some p => !(depsEq is p deps)

/-- The dependency array the component passes to `useEffect`: the
literal `[]`. -/
def userDeps : List JsVal := []

/-- Number of `fetchUser` calls issued over `n` consecutive renders of
the component, starting from the stored-deps state `prev`: each render
runs the effect (one `fetch`) exactly when `effectFires`, then stores
`userDeps` for the next render. -/
def fetchCallsFrom (is : JsVal → JsVal → Bool) :
    Nat → Option (List JsVal) → Nat
  | 0, _ => 0
  | n + 1, prev =>
      (if effectFires is prev userDeps then 1 else 0) +
        fetchCallsFrom is n (some userDeps)

/-- Number of `fetchUser` calls over a mount render followed by any
further re-renders: `n` renders in total, the first being the mount. -/
def fetchCalls (is : JsVal → JsVal → Bool) (n : Nat) : Nat :=
  fetchCallsFrom is n none

lemma depsEq_nil (is : JsVal → JsVal → Bool) : depsEq is [] [] = true := rfl

lemma effectFires_after (is : JsVal → JsVal → Bool) :
    effectFires is (some userDeps) userDeps = false := rfl

lemma fetchCallsFrom_after (is : JsVal → JsVal → Bool) :
    ∀ n, fetchCallsFrom is n (some userDeps) = 0 := by
  intro n
  induction n with
  | zero => rfl
  | succ n ih =>
      simp [fetchCallsFrom, effectFires_after, ih]

/-- The value a field lookup on an object yields: the stored value, or
`undefined` when the field is absent. -/
def fieldOf (fs : List (String × JsVal)) (f : String) : JsVal :=
  (fs.lookup f).getD .undefined

/-- Whether a value is a plain object (the only values React rejects as
text children in this model). -/
def isObj : JsVal → Bool
  | .obj _ => true
  | _ => false

lemma getField_obj (fs : List (String × JsVal)) (f : String) :
    getField (.obj fs) f = .ok (fieldOf fs f) := rfl

lemma ok_bind {ε α β : Type} (a : α) (f : α → Except ε β) :
    (Except.ok a : Except ε α) >>= f = f a := rfl

lemma jsxText_ok_of_not_isObj (v : JsVal) (h : isObj v = false) :
    ∃ t, jsxText v = .ok t := by
  cases v <;> simp_all [isObj, jsxText]

lemma not_isObj_of_falsy (v : JsVal) (h : truthy v = false) :
    isObj v = false := by
  cases v <;> simp_all [truthy, isObj]

lemma streetView_ok_of_not_isObj (v : JsVal) (h : isObj v = false) :
    ∃ sv, streetView v = .ok sv ∧ ∀ s, sv = .line s → truthy v = true := by
  obtain ⟨t, ht⟩ := jsxText_ok_of_not_isObj v h
  by_cases htr : truthy v = true
  · refine ⟨.line ("Address: " ++ t), ?_, fun _ _ => htr⟩
    simp [streetView, htr, ht, ok_bind]
  · refine ⟨if t = "" then .nothing else .text t, ?_, ?_⟩
    · simp [streetView, htr, ht, ok_bind]
    · intro s hs
      by_cases ht0 : t = "" <;> simp [ht0] at hs

lemma streetView_str (s : String) (h : s ≠ "") :
    streetView (.str s) = .ok (.line ("Address: " ++ s)) := by
  simp [streetView, truthy, jsxText, h, ok_bind]

/-- Evaluating the Loaded branch of the render body, given the outcome
of every property access and text conversion it performs. -/
lemma render_loaded (p idV fnV lnV a stV : JsVal) (idT fnT lnT : String)
    (sv : StreetRender)
    (hp : truthy p = true)
    (hid : getField p "id" = .ok idV)
    (hfn : getField p "firstName" = .ok fnV)
    (hln : getField p "lastName" = .ok lnV)
    (ha : getField p "address" = .ok a)
    (hst : getField a "street" = .ok stV)
    (hidT : jsxText idV = .ok idT)
    (hfnT : jsxText fnV = .ok fnT)
    (hlnT : jsxText lnV = .ok lnT)
    (hsv : streetView stV = .ok sv) :
    render false p =
      .ok (.loaded ("ID: " ++ idT) ("Name: " ++ fnT) ("Name: " ++ lnT) sv) := by
  simp [render, hp, hid, hfn, hln, ha, hst, hidT, hfnT, hlnT, hsv, ok_bind]

/-- Concrete truthy payload with no `address` field at all. -/
def noAddrUser : JsVal :=
  .obj [("id", .str "3"), ("firstName", .str "Alan"), ("lastName", .str "Turing")]

/-- Concrete truthy payload with no `address` field (id/name variant). -/
def missingAddrUser : JsVal :=
  .obj [("id", .str "1"), ("firstName", .str "A"), ("lastName", .str "B")]

/-- An address object whose `street`, `state` and `zip` fields are
absent. -/
def partialAddr : List (String × JsVal) :=
  [("city", .str "London")]

/-- Concrete payload whose address object lacks a `street` field. -/
def partialUser : JsVal :=
  .obj [("id", .str "1"), ("firstName", .str "A"), ("lastName", .str "B"),
    ("address", .obj partialAddr)]

/-- The address of concrete scenario A: empty-string street. -/
def adaAddr : List (String × JsVal) :=
  [("street", .str ""), ("city", .str "London"), ("state", .str ""),
    ("zip", .str "")]

/-- The payload of concrete scenario A. -/
def adaUser : JsVal :=
  .obj [("id", .str "1"), ("firstName", .str "Ada"),
    ("lastName", .str "Lovelace"), ("address", .obj adaAddr)]

/-- The address of concrete scenario C: non-empty street. -/
def graceAddr : List (String × JsVal) :=
  [("street", .str "1 Navy Yard"), ("city", .str "DC"), ("state", .str "DC"),
    ("zip", .str "20001")]

/-- The payload of concrete scenario C. -/
def graceUser : JsVal :=
  .obj [("id", .str "2"), ("firstName", .str "Grace"),
    ("lastName", .str "Hopper"), ("address", .obj graceAddr)]

/-- C1: for every loaded user value whose `address` field is a present
object — its nested `street`, `city`, `state`, `zip` fields arbitrary,
in particular absent or undefined — and whose text fields are, as the
data model declares, non-object values, rendering the Loaded state
raises no fault, and a street line can be rendered only when
`address.street` is present and truthy. -/
theorem c1_address_fields_null_safe
    (fs addrFs : List (String × JsVal))
    (ha : fieldOf fs "address" = .obj addrFs)
    (hid : isObj (fieldOf fs "id") = false)
    (hfn : isObj (fieldOf fs "firstName") = false)
    (hln : isObj (fieldOf fs "lastName") = false)
    (hst : isObj (fieldOf addrFs "street") = false) :
    ∃ idL n1 n2 sv, render false (.obj fs) = .ok (.loaded idL n1 n2 sv) ∧
      ∀ s, sv = .line s → truthy (fieldOf addrFs "street") = true := by
  obtain ⟨idT, hidT⟩ := jsxText_ok_of_not_isObj _ hid
  obtain ⟨fnT, hfnT⟩ := jsxText_ok_of_not_isObj _ hfn
  obtain ⟨lnT, hlnT⟩ := jsxText_ok_of_not_isObj _ hln
  obtain ⟨sv, hsv, hline⟩ := streetView_ok_of_not_isObj _ hst
  have ha2 : getField (.obj fs) "address" = .ok (.obj addrFs) := by
    rw [getField_obj, ha]
  exact ⟨"ID: " ++ idT, "Name: " ++ fnT, "Name: " ++ lnT, sv,
    render_loaded (.obj fs) (fieldOf fs "id") (fieldOf fs "firstName")
      (fieldOf fs "lastName") (.obj addrFs) (fieldOf addrFs "street")
      idT fnT lnT sv rfl (getField_obj fs "id") (getField_obj fs "firstName")
      (getField_obj fs "lastName") ha2 (getField_obj addrFs "street")
      hidT hfnT hlnT hsv, hline⟩

/-- Witness for C1 at a concrete user whose address object has only a
`city` field: rendering succeeds and any street line would require a
truthy street. -/
theorem c1_witness :
    ∃ idL n1 n2 sv,
      render false (.obj [("id", JsVal.str "1"), ("firstName", .str "A"),
        ("lastName", .str "B"), ("address", .obj partialAddr)]) =
        .ok (.loaded idL n1 n2 sv) ∧
      ∀ s, sv = .line s → truthy (fieldOf partialAddr "street") = true :=
  c1_address_fields_null_safe
    [("id", JsVal.str "1"), ("firstName", .str "A"), ("lastName", .str "B"),
      ("address", .obj partialAddr)]
    partialAddr rfl rfl rfl rfl rfl

/-- C2: when the fetched payload is `null` or `undefined`, the state
after the fetch cycle renders the no-user notice (the Empty state). -/
theorem c2_nullish_payload_renders_empty (p : JsVal)
    (hp : p = .null ∨ p = .undefined) :
    render (fetchUser initState (.ok p)).1.isLoading
      (fetchUser initState (.ok p)).1.user = .ok .noUser := by
  rcases hp with h | h <;> subst h <;> rfl

/-- Witness for C2 at the `null` payload (concrete scenario B). -/
theorem c2_witness :
    render (fetchUser initState (.ok .null)).1.isLoading
      (fetchUser initState (.ok .null)).1.user = .ok .noUser :=
  c2_nullish_payload_renders_empty .null (Or.inl rfl)

/-- Counterexample to C3 as stated: the payload
`{id:"3", firstName:"Alan", lastName:"Turing"}` is truthy, yet the
final state does not render the Loaded block — the unguarded
`user.address.street` access throws a `TypeError`. -/
theorem c3_counterexample :
    truthy noAddrUser = true ∧
    render (fetchUser initState (.ok noAddrUser)).1.isLoading
      (fetchUser initState (.ok noAddrUser)).1.user =
      .error (.typeError "street") :=
  ⟨rfl, rfl⟩

/-- C3 (amended): for every truthy payload for which the property
accesses `p.id`, `p.firstName`, `p.lastName` and `p.address.street`
succeed and whose accessed values are valid React text children, the
final state is Loaded and renders `id`, `firstName` and `lastName`
verbatim (as their JSX text). -/
theorem c3_truthy_payload_renders_fields
    (p idV fnV lnV a stV : JsVal) (idT fnT lnT : String) (sv : StreetRender)
    (hp : truthy p = true)
    (hid : getField p "id" = .ok idV)
    (hfn : getField p "firstName" = .ok fnV)
    (hln : getField p "lastName" = .ok lnV)
    (ha : getField p "address" = .ok a)
    (hst : getField a "street" = .ok stV)
    (hidT : jsxText idV = .ok idT)
    (hfnT : jsxText fnV = .ok fnT)
    (hlnT : jsxText lnV = .ok lnT)
    (hsv : streetView stV = .ok sv) :
    render (fetchUser initState (.ok p)).1.isLoading
      (fetchUser initState (.ok p)).1.user =
      .ok (.loaded ("ID: " ++ idT) ("Name: " ++ fnT) ("Name: " ++ lnT) sv) :=
  render_loaded p idV fnV lnV a stV idT fnT lnT sv hp hid hfn hln ha hst
    hidT hfnT hlnT hsv

/-- Witness for the amended C3 at concrete scenario C. -/
theorem c3_witness :
    render (fetchUser initState (.ok graceUser)).1.isLoading
      (fetchUser initState (.ok graceUser)).1.user =
      .ok (.loaded ("ID: " ++ "2") ("Name: " ++ "Grace")
        ("Name: " ++ "Hopper") (.line ("Address: " ++ "1 Navy Yard"))) :=
  c3_truthy_payload_renders_fields graceUser (.str "2") (.str "Grace")
    (.str "Hopper") (.obj graceAddr) (.str "1 Navy Yard")
    "2" "Grace" "Hopper" (.line ("Address: " ++ "1 Navy Yard"))
    rfl rfl rfl rfl rfl rfl rfl rfl rfl rfl

/-- C4: in a Loaded render whose property accesses succeed, a falsy
`address.street` produces no street line, and a non-empty string
street produces exactly the line `Address: ` followed by that string. -/
theorem c4_street_guard
    (p a stV idV fnV lnV : JsVal) (idT fnT lnT : String)
    (hp : truthy p = true)
    (hid : getField p "id" = .ok idV)
    (hfn : getField p "firstName" = .ok fnV)
    (hln : getField p "lastName" = .ok lnV)
    (ha : getField p "address" = .ok a)
    (hst : getField a "street" = .ok stV)
    (hidT : jsxText idV = .ok idT)
    (hfnT : jsxText fnV = .ok fnT)
    (hlnT : jsxText lnV = .ok lnT)
    (hstO : isObj stV = false) :
    ∃ sv, render false p =
        .ok (.loaded ("ID: " ++ idT) ("Name: " ++ fnT) ("Name: " ++ lnT) sv) ∧
      (truthy stV = false → ∀ s, sv ≠ .line s) ∧
      (∀ s, stV = .str s → s ≠ "" → sv = .line ("Address: " ++ s)) := by
  obtain ⟨sv, hsv, hline⟩ := streetView_ok_of_not_isObj _ hstO
  refine ⟨sv, render_loaded p idV fnV lnV a stV idT fnT lnT sv hp hid hfn hln
    ha hst hidT hfnT hlnT hsv, ?_, ?_⟩
  · intro hfalsy s hs
    rw [hline s hs] at hfalsy
    simp at hfalsy
  · intro s hseq hne
    subst hseq
    exact Except.ok.inj (hsv.symm.trans (streetView_str s hne))

/-- Witness for C4 at concrete scenario A: the empty-string street of
`adaUser` yields no street line next to the three rendered text
lines. -/
theorem c4_witness :
    ∃ sv, render false adaUser =
        .ok (.loaded ("ID: " ++ "1") ("Name: " ++ "Ada")
          ("Name: " ++ "Lovelace") sv) ∧
      (truthy (.str "") = false → ∀ s, sv ≠ .line s) ∧
      (∀ s, JsVal.str "" = .str s → s ≠ "" → sv = .line ("Address: " ++ s)) :=
  c4_street_guard adaUser (.obj adaAddr) (.str "") (.str "1") (.str "Ada")
    (.str "Lovelace") "1" "Ada" "Lovelace"
    rfl rfl rfl rfl rfl rfl rfl rfl rfl rfl

/-- C5: on the initial render, before the fetch resolves, the
component's state is loading and it renders the loading indicator and
nothing else. -/
theorem c5_initial_render_loading :
    initState.isLoading = true ∧
    render initState.isLoading initState.user = .ok .loading :=
  ⟨rfl, rfl⟩

/-- C6: over a mount render followed by any number of re-renders (for
any interpretation of `Object.is` on dependency entries), exactly one
`fetchUser` call is issued. -/
theorem c6_one_fetch_per_mount (is : JsVal → JsVal → Bool) (n : Nat) :
    fetchCalls is (n + 1) = 1 := by
  simp [fetchCalls, fetchCallsFrom, effectFires, fetchCallsFrom_after]

/-- C7: the fetch cycle installs no handler: a rejected fetch leaves
only the initial `setIsLoading(true)` write applied and the error
escapes uncaught. -/
theorem c7_fetch_error_uncaught (s : CState) (e : JsErr) :
    fetchUser s (.error e) = ({ s with isLoading := true }, some e) :=
  rfl

/-- C8: a truthy payload with no `address` field faults at the
unguarded `user.address.street` access, while the same shape with a
present (street-less) address object renders safely — the guard covers
only fields inside a present address. -/
theorem c8_missing_address_faults :
    truthy missingAddrUser = true ∧
    render false missingAddrUser = .error (.typeError "street") ∧
    render false partialUser =
      .ok (.loaded ("ID: " ++ "1") ("Name: " ++ "A") ("Name: " ++ "B")
        .nothing) :=
  ⟨rfl, rfl, rfl⟩

/-- C9: when the fetch rejects, the failed cycle leaves the state equal
to the initial state — `isLoading` still `true`, `user` still `null` —
so the component keeps rendering the loading indicator. -/
theorem c9_failed_fetch_keeps_loading (e : JsErr) :
    (fetchUser initState (.error e)).1 = initState ∧
    render (fetchUser initState (.error e)).1.isLoading
      (fetchUser initState (.error e)).1.user = .ok .loading :=
  ⟨rfl, rfl⟩

/-- C10: every falsy but non-nullish payload (`0`, `""`, `false`,
`NaN`) also lands in the Empty state: the no-user test is truthiness
of the stored value, strictly broader than the null/undefined
condition. -/
theorem c10_falsy_payload_renders_empty (p : JsVal)
    (hfalsy : truthy p = false) (hnull : p ≠ .null)
    (hundef : p ≠ .undefined) :
    render (fetchUser initState (.ok p)).1.isLoading
      (fetchUser initState (.ok p)).1.user = .ok .noUser := by
  simp [fetchUser, initState, render, hfalsy]

/-- Witness for C10 at the four falsy non-nullish values. -/
theorem c10_witness :
    render (fetchUser initState (.ok (.num 0))).1.isLoading
      (fetchUser initState (.ok (.num 0))).1.user = .ok .noUser ∧
    render (fetchUser initState (.ok (.str ""))).1.isLoading
      (fetchUser initState (.ok (.str ""))).1.user = .ok .noUser ∧
    render (fetchUser initState (.ok (.bool false))).1.isLoading
      (fetchUser initState (.ok (.bool false))).1.user = .ok .noUser ∧
    render (fetchUser initState (.ok .nan)).1.isLoading
      (fetchUser initState (.ok .nan)).1.user = .ok .noUser :=
  ⟨c10_falsy_payload_renders_empty (.num 0) rfl
      (fun h => JsVal.noConfusion h) (fun h => JsVal.noConfusion h),
    c10_falsy_payload_renders_empty (.str "") rfl
      (fun h => JsVal.noConfusion h) (fun h => JsVal.noConfusion h),
    c10_falsy_payload_renders_empty (.bool false) rfl
      (fun h => JsVal.noConfusion h) (fun h => JsVal.noConfusion h),
    c10_falsy_payload_renders_empty .nan rfl
      (fun h => JsVal.noConfusion h) (fun h => JsVal.noConfusion h)⟩
